import Mathlib

/-!
Verification of the na-emailer event-to-notification pipeline.

The development shallowly embeds the core of `app/main.py` (event
normalization, recipient resolution, content selection, message assembly,
disposition) and `app/clients/yagmail_client.py` (the argument computation of
the concrete delivery backend).  External collaborators (the filter engine,
the template renderer, the SMTP transport) are modelled as parameters, as the
specification treats them as black-box contracts.
-/

namespace NaEmailer

/-- A dynamically typed Python value, covering the payload shapes the pipeline
inspects: `None`, `str`, `bytes`/`bytearray` (as a byte list), `int`, `bool`,
`list`, and string-keyed `dict` (as an association list, first binding wins,
mirroring the uniqueness of Python dict keys). -/
inductive PyVal where
  | pnone : PyVal
  | pstr : String → PyVal
  | pbytes : List Nat → PyVal
  | pint : Int → PyVal
  | pbool : Bool → PyVal
  | plist : List PyVal → PyVal
  | pdict : List (String × PyVal) → PyVal

/-- Python truthiness (`bool(x)`) for the modelled value shapes. -/
def pyTruthy : PyVal → Bool
  | .pnone => false
  | .pstr s => s != ""
  | .pbytes b => !b.isEmpty
  | .pint n => n != 0
  | .pbool b => b
  | .plist l => !l.isEmpty
  | .pdict d => !d.isEmpty

mutual
/-- Python `repr(x)` for the modelled value shapes (string escaping inside
`repr` of strings/bytes is not modelled; no claim exercises it). -/
def pyRepr : PyVal → String
  | .pnone => "None"
  | .pstr s => "'" ++ s ++ "'"
  | .pbytes b => "b'" ++ String.mk (b.map Char.ofNat) ++ "'"
  | .pint n => toString n
  | .pbool b => if b then "True" else "False"
  | .plist l => "[" ++ String.intercalate ", " (pyReprList l) ++ "]"
  | .pdict d => "\x7b" ++ String.intercalate ", " (pyReprPairs d) ++ "\x7d"

def pyReprList : List PyVal → List String
  | [] => []
  | v :: vs => pyRepr v :: pyReprList vs

def pyReprPairs : List (String × PyVal) → List String
  | [] => []
  | kv :: kvs => ("'" ++ kv.1 ++ "': " ++ pyRepr kv.2) :: pyReprPairs kvs
end

/-- Python `str(x)`: the string itself for `str` values, `repr`-style text for
everything else (`str(None) = "None"`, `str(True) = "True"`, lists/dicts print
their elements' reprs). -/
def pyStr : PyVal → String
  | .pstr s => s
  | v => pyRepr v

/-- ASCII whitespace recognised by the model of Python `str.strip()`.
(Python also strips some further Unicode whitespace; the pipeline only ever
meets ASCII whitespace.) -/
def isPySpace (c : Char) : Bool :=
  c == ' ' || c == '\t' || c == '\n' || c == '\r' || c == '\x0b' || c == '\x0c'

/-- Strip leading and trailing whitespace from a character list. -/
def stripChars (l : List Char) : List Char :=
  ((l.dropWhile isPySpace).reverse.dropWhile isPySpace).reverse

/-- Model of Python `str.strip()`. -/
def pyStrip (s : String) : String := ⟨stripChars s.data⟩

/-- Model of Python `str.lower()` (ASCII case folding). -/
def pyLower (s : String) : String := ⟨s.data.map Char.toLower⟩

/-- Model of Python `str.split(",")`: split on every comma, keeping empty
segments, with the empty string giving one empty segment. -/
def pySplitComma (s : String) : List String :=
  (s.data.splitOn ',').map fun seg => (⟨seg⟩ : String)

/-- The Unicode replacement character emitted for undecodable bytes. -/
def replacementChar : Char := Char.ofNat 0xFFFD

/-- Whether a byte is a UTF-8 continuation byte. -/
def isUtf8Cont (b : Nat) : Bool := 0x80 ≤ b && b < 0xC0

/-- A scalar value decoded from a multi-byte sequence, guarded against
surrogates, overlong encodings below `lo`, and out-of-range values. -/
def utf8Scalar (lo n : Nat) : Char :=
  if n < lo || (0xD800 ≤ n && n ≤ 0xDFFF) || 0x10FFFF < n then replacementChar
  else Char.ofNat n

/-- Model of Python `bytes.decode("utf-8", errors="replace")`: well-formed
sequences decode to their scalar value, anything else contributes a
replacement character and decoding resumes after the offending lead byte. -/
def utf8DecodeReplaceAux : List Nat → List Char
  | [] => []
  | b :: rest =>
    if b < 0x80 then Char.ofNat b :: utf8DecodeReplaceAux rest
    else if b < 0xC2 then replacementChar :: utf8DecodeReplaceAux rest
    else if b < 0xE0 then
      match rest with
      | b1 :: r =>
        if isUtf8Cont b1 then
          utf8Scalar 0x80 ((b - 0xC0) * 0x40 + (b1 - 0x80)) :: utf8DecodeReplaceAux r
        else replacementChar :: utf8DecodeReplaceAux (b1 :: r)
      | [] => [replacementChar]
    else if b < 0xF0 then
      match rest with
      | b1 :: b2 :: r =>
        if isUtf8Cont b1 && isUtf8Cont b2 then
          utf8Scalar 0x800 ((b - 0xE0) * 0x1000 + (b1 - 0x80) * 0x40 + (b2 - 0x80)) ::
            utf8DecodeReplaceAux r
        else replacementChar :: utf8DecodeReplaceAux (b1 :: b2 :: r)
      | [b1] => replacementChar :: utf8DecodeReplaceAux [b1]
      | [] => [replacementChar]
    else if b < 0xF5 then
      match rest with
      | b1 :: b2 :: b3 :: r =>
        if isUtf8Cont b1 && isUtf8Cont b2 && isUtf8Cont b3 then
          utf8Scalar 0x10000
              ((b - 0xF0) * 0x40000 + (b1 - 0x80) * 0x1000 + (b2 - 0x80) * 0x40 + (b3 - 0x80)) ::
            utf8DecodeReplaceAux r
        else replacementChar :: utf8DecodeReplaceAux (b1 :: b2 :: b3 :: r)
      | [b1, b2] => replacementChar :: utf8DecodeReplaceAux [b1, b2]
      | [b1] => replacementChar :: utf8DecodeReplaceAux [b1]
      | [] => [replacementChar]
    else replacementChar :: utf8DecodeReplaceAux rest
termination_by l => l.length
decreasing_by all_goals (simp_wf <;> omega)

/-- Decode a byte list to a string, with replacement of undecodable bytes. -/
def utf8DecodeReplace (l : List Nat) : String := ⟨utf8DecodeReplaceAux l⟩

/-- Python `value in (None, "")`: equality against `None` or the empty
string. -/
def pyIsNoneOrEmptyStr : PyVal → Bool
  | .pnone => true
  | .pstr s => s == ""
  | _ => false

/-- Model of `_parse_recipients` from `app/main.py`: `None` or the empty string give
`[]`; a list gives its elements stringified, stripped, empties dropped; a
string is split on commas, segments stripped, empties dropped; any other type
gives `[]`. -/
def _parse_recipients (value : PyVal) : List String :=
  if pyIsNoneOrEmptyStr value then []
  else
    match value with
    | .plist xs => (xs.map fun x => pyStrip (pyStr x)).filter (fun s => s != "")
    | .pstr s => ((pySplitComma s).map pyStrip).filter (fun s => s != "")
    | _ => []

/-- Python `x or y` on values: `x` when truthy, else `y`. -/
def pyOr (a b : PyVal) : PyVal := if pyTruthy a then a else b

/-- Python `d.get(k)`: the first binding of `k`, else `None`. -/
def dictGet (d : List (String × PyVal)) (k : String) : PyVal :=
  match d.find? (fun kv => kv.1 == k) with
  | some kv => kv.2
  | none => .pnone

/-- Model of `_extract_raw_mime` from `app/main.py`, as a function of `ctx.data` (the
only field the source reads): bytes decode with replacement, strings pass
through, a dict is probed with `get("raw_mime") or get("mime") or
get("message")` and the result is returned only when it is a string with
non-whitespace content; everything else gives `None`. -/
def _extract_raw_mime (data : PyVal) : Option String :=
  match data with
  | .pnone => none
  | .pbytes b => some (utf8DecodeReplace b)
  | .pstr s => some s
  | .pdict d =>
    match pyOr (dictGet d "raw_mime") (pyOr (dictGet d "mime") (dictGet d "message")) with
    | .pstr s => if pyStrip s != "" then some s else none
    | _ => none
  | _ => none

/-! ## Event normalization and the handler pipeline (`app/main.py`) -/

/-- The normalized Event Context built by `_ctx_from_cloudevent`
(`EventContext` in `app/models.py`, a plain data holder; its fields are taken
from the spec data model and from how `app/main.py` populates and reads it). -/
structure EventContext where
  id : String
  source : String
  type : String
  subject : Option String := none
  time : Option String := none
  dataschema : Option String := none
  emailto : Option String := none
  emailcc : Option String := none
  emailbcc : Option String := none
  datacontenttype : Option String := none
  data : PyVal := .pnone
  extensions : List (String × String) := []

/-- A parsed CloudEvent envelope as `from_http` hands it over: named
attributes (CloudEvents attribute values are strings on the wire) plus the
`data` payload. -/
structure Envelope where
  attrs : List (String × String)
  data : PyVal

/-- Attribute lookup `ce.get(name)` / `ce[name]` on the envelope. -/
def envGet (ce : Envelope) (k : String) : Option String :=
  match ce.attrs.find? (fun kv => kv.1 == k) with
  | some kv => some kv.2
  | none => none

/-- The `spec_keys` set of `_ctx_from_cloudevent` in `app/main.py` (note it
reserves `emailto`/`emailcc`/`emailbcc` in addition to the CloudEvents
spec attributes). -/
def specKeys : List String :=
  ["id", "source", "type", "specversion", "subject", "time", "dataschema",
   "emailto", "emailcc", "emailbcc", "datacontenttype", "data"]

/-- Model of `_ctx_from_cloudevent` from `app/main.py`: requires `id`, `source`,
`type` (an absent one raises, caught by the caller as a malformed event,
modelled as `none`); optional attributes are looked up with `get`; every
attribute outside `spec_keys` becomes an extension. -/
def _ctx_from_cloudevent (ce : Envelope) : Option EventContext :=
  match envGet ce "id", envGet ce "source", envGet ce "type" with
  | some i, some s, some t =>
    some { id := i, source := s, type := t,
           subject := envGet ce "subject", time := envGet ce "time",
           dataschema := envGet ce "dataschema",
           emailto := envGet ce "emailto", emailcc := envGet ce "emailcc",
           emailbcc := envGet ce "emailbcc",
           datacontenttype := envGet ce "datacontenttype",
           data := ce.data,
           extensions := ce.attrs.filter (fun kv => !(specKeys.contains kv.1)) }
  | _, _, _ => none

/-- View an optional envelope attribute as the Python value
`_parse_recipients` receives. -/
def optVal : Option String → PyVal
  | none => .pnone
  | some s => .pstr s

/-- Model of `_recipients_from_event` from `app/main.py`: parse the three first-class
`emailto`/`emailcc`/`emailbcc` attributes of the context. -/
def _recipients_from_event (ctx : EventContext) :
    List String × List String × List String :=
  (_parse_recipients (optVal ctx.emailto), _parse_recipients (optVal ctx.emailcc),
   _parse_recipients (optVal ctx.emailbcc))

/-- The outbound message (`EmailMessage` in `app/models.py`, a plain data
holder; fields as the spec data model and `app/main.py` use them). -/
structure EmailMessage where
  subject : String
  text : Option String
  html : Option String
  sender : String
  «to» : List String
  cc : List String
  bcc : List String
  headers : List (String × String)
  raw_mime : Option String := none
deriving DecidableEq, Repr

/-- The slice of the static configuration (`load_settings`) that the handler
pipeline reads; the remaining fields configure external collaborators
(filtering, templating, SMTP) that are modelled as parameters. -/
structure Settings where
  email_from : String
  email_to : List String
  email_cc : List String
  email_bcc : List String
  dry_run : Bool
deriving DecidableEq, Repr

/-- Outcome of the template-rendering collaborator
(`TemplateRenderer(settings).render(ctx)`): a `(subject, text, html)` triple,
or a raised rendering error. -/
inductive RenderOutcome where
  | ok (subject : String) (text : Option String) (html : Option String)
  | failure
deriving DecidableEq, Repr

/-- Observable outcome of one `handle` request: the `(body, status)` response
returned to the transport, whether the template renderer was invoked, the
message handed to the delivery client's `send` (if any, kept also when `send`
raised), and which skip branch fired (distinguished in the source by its
distinct log line: "No recipients configured" vs "DRY RUN"). -/
structure HandleResult where
  body : String
  status : Nat
  renderCalled : Bool
  sentMessage : Option EmailMessage
  skipNoRecipients : Bool
  skipDryRun : Bool
deriving DecidableEq, Repr

/-- Python `a or b` on recipient lists: the event-supplied list when
non-empty, else the configured fallback. -/
def listOr (a b : List String) : List String := if a.isEmpty then b else a

/-- The `to` list after static-configuration fallback
(`recipients = event_recipients or settings.email_to`). -/
def finalTo (settings : Settings) (ctx : EventContext) : List String :=
  listOr (_recipients_from_event ctx).1 settings.email_to

/-- The `cc` list after static-configuration fallback. -/
def finalCc (settings : Settings) (ctx : EventContext) : List String :=
  listOr (_recipients_from_event ctx).2.1 settings.email_cc

/-- The `bcc` list after static-configuration fallback. -/
def finalBcc (settings : Settings) (ctx : EventContext) : List String :=
  listOr (_recipients_from_event ctx).2.2 settings.email_bcc

/-- The content types selecting the raw-MIME branch in `handle`. -/
def mimeContentTypes : List String := ["mimemultipart", "mime/multipart", "multipart/mixed"]

/-- The branch condition of `handle`:
`(ctx.datacontenttype or "").strip().lower() in {...}`. -/
def isMimeContentType (dct : Option String) : Bool :=
  mimeContentTypes.contains (pyLower (pyStrip (dct.getD "")))

/-- The three tracing headers both message constructions attach. -/
def traceHeaders (ctx : EventContext) : List (String × String) :=
  [("X-CloudEvent-ID", ctx.id), ("X-CloudEvent-Type", ctx.type),
   ("X-CloudEvent-Source", ctx.source)]

/-- The message built in the raw-MIME branch of `handle`. -/
def mimeMessage (settings : Settings) (ctx : EventContext) (raw : String) : EmailMessage :=
  { subject := "", text := none, html := none, sender := settings.email_from,
    «to» := finalTo settings ctx, cc := finalCc settings ctx,
    bcc := finalBcc settings ctx, headers := traceHeaders ctx,
    raw_mime := some raw }

/-- The message built in the template branch of `handle` (`raw_mime` is still
`None` there). -/
def templateMessage (settings : Settings) (ctx : EventContext)
    (subject : String) (text html : Option String) : EmailMessage :=
  { subject := subject, text := text, html := html, sender := settings.email_from,
    «to» := finalTo settings ctx, cc := finalCc settings ctx,
    bcc := finalBcc settings ctx, headers := traceHeaders ctx,
    raw_mime := none }

/-- The body of `handle` after a context was obtained: filter gate, recipient
resolution with fallback, branch selection, message assembly and disposition.
The filter engine result, the render outcome and whether `client.send`
succeeds are parameters, as those collaborators are external to the core
(the inline-template override of `settings.templates_inline_json` only feeds
the renderer, so it is absorbed into the `render` parameter). -/
def handleCtx (settings : Settings) (filterResult : Bool) (render : RenderOutcome)
    (sendOk : Bool) (ctx : EventContext) : HandleResult :=
  if !filterResult then
    { body := "", status := 204, renderCalled := false, sentMessage := none,
      skipNoRecipients := false, skipDryRun := false }
  else if isMimeContentType ctx.datacontenttype then
    match _extract_raw_mime ctx.data with
    | none =>
      { body := "Missing raw MIME payload in CloudEvent data", status := 400,
        renderCalled := false, sentMessage := none,
        skipNoRecipients := false, skipDryRun := false }
    | some raw =>
      -- `if not raw_mime:` also treats an empty extracted string as missing.
      if raw = "" then
        { body := "Missing raw MIME payload in CloudEvent data", status := 400,
          renderCalled := false, sentMessage := none,
          skipNoRecipients := false, skipDryRun := false }
      else
        let msg := mimeMessage settings ctx raw
        if msg.to = [] ∧ msg.cc = [] ∧ msg.bcc = [] then
          { body := "", status := 202, renderCalled := false, sentMessage := none,
            skipNoRecipients := true, skipDryRun := false }
        else if settings.dry_run then
          { body := "", status := 202, renderCalled := false, sentMessage := none,
            skipNoRecipients := false, skipDryRun := true }
        else if sendOk then
          { body := "", status := 202, renderCalled := false, sentMessage := some msg,
            skipNoRecipients := false, skipDryRun := false }
        else
          { body := "Email send failed", status := 502, renderCalled := false,
            sentMessage := some msg, skipNoRecipients := false, skipDryRun := false }
  else
    match render with
    | .failure =>
      { body := "Template rendering failed", status := 500, renderCalled := true,
        sentMessage := none, skipNoRecipients := false, skipDryRun := false }
    | .ok subject text html =>
      let msg := templateMessage settings ctx subject text html
      -- `if not msg.to:` — the template branch only checks the `to` list.
      if msg.to = [] then
        { body := "", status := 202, renderCalled := true, sentMessage := none,
          skipNoRecipients := true, skipDryRun := false }
      else if settings.dry_run then
        { body := "", status := 202, renderCalled := true, sentMessage := none,
          skipNoRecipients := false, skipDryRun := true }
      else if sendOk then
        { body := "", status := 202, renderCalled := true, sentMessage := some msg,
          skipNoRecipients := false, skipDryRun := false }
      else
        { body := "Email send failed", status := 502, renderCalled := true,
          sentMessage := some msg, skipNoRecipients := false, skipDryRun := false }

/-- Model of `handle` from `app/main.py`: `parsed = none` models `from_http` raising;
a context-translation failure is the second 400 path; then `handleCtx`. -/
def handle (parsed : Option Envelope) (settings : Settings) (filterResult : Bool)
    (render : RenderOutcome) (sendOk : Bool) : HandleResult :=
  match parsed with
  | none =>
    { body := "Invalid CloudEvent", status := 400, renderCalled := false,
      sentMessage := none, skipNoRecipients := false, skipDryRun := false }
  | some ce =>
    match _ctx_from_cloudevent ce with
    | none =>
      { body := "Invalid CloudEvent", status := 400, renderCalled := false,
        sentMessage := none, skipNoRecipients := false, skipDryRun := false }
    | some ctx => handleCtx settings filterResult render sendOk ctx

/-! ## The concrete delivery backend (`app/clients/yagmail_client.py`) -/

/-- The argument record `YagmailClient.send` passes to `yagmail.SMTP.send`. -/
structure YagmailSendArgs where
  «to» : List String
  subject : String
  contents : List String
  cc : Option (List String)
  bcc : Option (List String)
  headers : Option (List (String × String))
deriving DecidableEq, Repr

/-- Python truthiness of an optional string (`if message.html:`). -/
def optTruthy : Option String → Bool
  | none => false
  | some s => s != ""

/-- Model of `YagmailClient.send` from `app/clients/yagmail_client.py`, as the
argument record handed to the SMTP backend: `contents` holds the html body if
truthy, else the text body if truthy, else nothing; `cc`/`bcc`/`headers`
become `None` when empty.  Note the body never reads `message.raw_mime`. -/
def yagmailSend (message : EmailMessage) : YagmailSendArgs :=
  { «to» := message.to
    subject := message.subject
    contents :=
      if optTruthy message.html then [message.html.getD ""]
      else if optTruthy message.text then [message.text.getD ""]
      else []
    cc := if message.cc.isEmpty then none else some message.cc
    bcc := if message.bcc.isEmpty then none else some message.bcc
    headers := if message.headers.isEmpty then none else some message.headers }

/-! ## Spec-side comparison definitions and concrete inputs -/

/-- The first truthy value of a list, if any (used to restate the dict probe
of `_extract_raw_mime` independently of the `or`-chain). -/
def firstTruthy : List PyVal → Option PyVal
  | [] => none
  | v :: vs => if pyTruthy v then some v else firstTruthy vs

/-- Branch selection exactly as claim C4 words it: `datacontenttype` compared
case-insensitively against the three MIME values, with no whitespace
trimming.  To be compared against `isMimeContentType`, which follows the
source and also strips. -/
def claimedMimeContentType (dct : Option String) : Bool :=
  mimeContentTypes.contains (pyLower (dct.getD ""))

/-- The `data` payload viewed as a mapping, for the spec-side resolution rule
of claim C3.  JSON-decoding a byte-sequence or string payload to a mapping is
not modelled: such payloads count as failed decodes (absent), which the
spec's rule tolerates; the comparison input below uses a plain mapping, on
which this view and the spec's rule agree exactly. -/
def dataAsMapping : PyVal → Option (List (String × PyVal))
  | .pdict d => some d
  | _ => none

/-- Recipient resolution as claim C3 (spec §4.2) words it: first an extension
attribute named exactly `fieldName`, then the first-class attribute of the
same semantic name, then the key `fieldName` inside the decoded `data`
mapping, and the empty list when absent everywhere. -/
def resolveSpec (ctx : EventContext) (fieldName : String)
    (firstClass : Option String) : List String :=
  match ctx.extensions.find? (fun kv => kv.1 == fieldName) with
  | some kv => _parse_recipients (.pstr kv.2)
  | none =>
    match firstClass with
    | some v => _parse_recipients (.pstr v)
    | none =>
      match dataAsMapping ctx.data with
      | some m => _parse_recipients (dictGet m fieldName)
      | none => []

/-- The three resolved lists under the spec-side rule of claim C3. -/
def resolveSpecAll (ctx : EventContext) : List String × List String × List String :=
  (resolveSpec ctx "emailto" ctx.emailto, resolveSpec ctx "emailcc" ctx.emailcc,
   resolveSpec ctx "emailbcc" ctx.emailbcc)

/-- Join a recipient list back into one comma-separated string (the join used
by the idempotence claim C7). -/
def commaJoin (l : List String) : String :=
  ⟨List.intercalate [','] (l.map String.data)⟩

/-- Settings for the C1 counterexample: no configured `to`, a configured
`cc`, dry-run disabled. -/
def settingsNoTo : Settings :=
  { email_from := "noreply@x.com", email_to := [], email_cc := ["cc@x.com"],
    email_bcc := [], dry_run := false }

/-- A minimal valid context carrying no recipient hints and no
`datacontenttype` (template branch). -/
def ctxPlain : EventContext := { id := "1", source := "s", type := "t" }

/-- A context whose `data` mapping carries an `emailto` key but whose
first-class `emailto` attribute is absent (C3 comparison input). -/
def ctxDataRecipients : EventContext :=
  { id := "1", source := "s", type := "t",
    data := .pdict [("emailto", .pstr "a@x.com")] }

/-- An envelope whose `datacontenttype` is ` multipart/mixed` (leading
space): case-insensitively it is none of the three MIME values, yet the
source's strip-then-compare selects the raw-MIME branch (C4). -/
def envPaddedMime : Envelope :=
  { attrs := [("id", "1"), ("source", "s"), ("type", "t"),
              ("datacontenttype", " multipart/mixed")],
    data := .pdict [("raw_mime", .pstr "MIME body")] }

/-- Settings with a configured recipient and dry-run disabled. -/
def settingsSend : Settings :=
  { email_from := "noreply@x.com", email_to := ["a@x.com"], email_cc := [],
    email_bcc := [], dry_run := false }

/-- A minimal well-formed envelope (only the three required attributes). -/
def envPlain : Envelope :=
  { attrs := [("id", "1"), ("source", "s"), ("type", "t")], data := .pnone }

/-- A context selecting the raw-MIME branch with usable raw content. -/
def ctxRawMime : EventContext :=
  { id := "1", source := "s", type := "t",
    datacontenttype := some "multipart/mixed",
    data := .pdict [("raw_mime", .pstr "MIME body")] }

/-- A raw-MIME shaped message exactly as the raw-MIME branch of `handle`
builds it: `text` and `html` absent, `raw_mime` populated (C6 failing
input). -/
def rawMimeMsg : EmailMessage :=
  { subject := "", text := none, html := none, sender := "noreply@x.com",
    «to» := ["a@x.com"], cc := [], bcc := [],
    headers := [("X-CloudEvent-ID", "1"), ("X-CloudEvent-Type", "t"),
                ("X-CloudEvent-Source", "s")],
    raw_mime := some "MIME-Version: 1.0" }

/-! ## Helper lemmas -/

theorem orChain_of_firstTruthy_some (a b c v : PyVal)
    (h : firstTruthy [a, b, c] = some v) : pyOr a (pyOr b c) = v := by
  simp only [firstTruthy] at h
  by_cases ta : pyTruthy a = true
  · rw [if_pos ta] at h
    simp only [pyOr, if_pos ta]
    exact Option.some.inj h
  · rw [if_neg ta] at h
    by_cases tb : pyTruthy b = true
    · rw [if_pos tb] at h
      simp only [pyOr, if_neg ta, if_pos tb]
      exact Option.some.inj h
    · rw [if_neg tb] at h
      by_cases tc : pyTruthy c = true
      · rw [if_pos tc] at h
        simp only [pyOr, if_neg ta, if_neg tb]
        exact Option.some.inj h
      · rw [if_neg tc] at h
        exact absurd h (by simp)

theorem orChain_of_firstTruthy_none (a b c : PyVal)
    (h : firstTruthy [a, b, c] = none) :
    pyOr a (pyOr b c) = c ∧ pyTruthy c = false := by
  simp only [firstTruthy] at h
  by_cases ta : pyTruthy a = true
  · rw [if_pos ta] at h
    exact absurd h (by simp)
  · rw [if_neg ta] at h
    by_cases tb : pyTruthy b = true
    · rw [if_pos tb] at h
      exact absurd h (by simp)
    · rw [if_neg tb] at h
      by_cases tc : pyTruthy c = true
      · rw [if_pos tc] at h
        exact absurd h (by simp)
      · refine ⟨?_, by simpa using tc⟩
        simp only [pyOr, if_neg ta, if_neg tb]

theorem strip_filter_eq_filterMap (xs : List String) :
    (xs.map pyStrip).filter (fun s => s != "") =
      xs.filterMap (fun w => if pyStrip w = "" then none else some (pyStrip w)) := by
  induction xs with
  | nil => rfl
  | cons a l ih =>
    simp only [List.map_cons, List.filter_cons, List.filterMap_cons]
    by_cases h : pyStrip a = ""
    · simp [h, ih]
    · simp [h, ih]

/-! ## Claim C8: the recipient-parsing case analysis -/

/-- C8: `_parse_recipients` maps `None` and the empty string to `[]`; a list
to its elements stringified, stripped, with empties dropped (order and
multiplicity preserved by `filterMap`); a string to its comma-separated
segments stripped with empties dropped; any other type to `[]` without
error; and `"a@x.com, b@y.com ,"` to exactly `["a@x.com", "b@y.com"]`. -/
theorem parse_recipients_cases :
    (_parse_recipients .pnone = [] ∧ _parse_recipients (.pstr "") = [])
    ∧ (∀ xs : List PyVal,
        _parse_recipients (.plist xs) =
          xs.filterMap (fun x =>
            if pyStrip (pyStr x) = "" then none else some (pyStrip (pyStr x))))
    ∧ (∀ s : String,
        _parse_recipients (.pstr s) =
          (pySplitComma s).filterMap (fun seg =>
            if pyStrip seg = "" then none else some (pyStrip seg)))
    ∧ ((∀ n : Int, _parse_recipients (.pint n) = [])
       ∧ (∀ b : Bool, _parse_recipients (.pbool b) = [])
       ∧ (∀ bs : List Nat, _parse_recipients (.pbytes bs) = [])
       ∧ (∀ d : List (String × PyVal), _parse_recipients (.pdict d) = []))
    ∧ _parse_recipients (.pstr "a@x.com, b@y.com ,") = ["a@x.com", "b@y.com"] := by
  refine ⟨⟨rfl, rfl⟩, ?_, ?_, ⟨fun _ => rfl, fun _ => rfl, fun _ => rfl, fun _ => rfl⟩, by decide⟩
  · intro xs
    have : (xs.map fun x => pyStrip (pyStr x)) = (xs.map pyStr).map pyStrip := by
      simp [List.map_map, Function.comp]
    simp only [_parse_recipients, pyIsNoneOrEmptyStr, if_false, Bool.false_eq_true, this,
      strip_filter_eq_filterMap, List.filterMap_map, Function.comp]
    rfl
  · intro s
    by_cases hs : s = ""
    · subst hs
      have : pySplitComma "" = [""] := rfl
      simp [_parse_recipients, pyIsNoneOrEmptyStr, this, pyStrip, stripChars]
    · have hguard : pyIsNoneOrEmptyStr (.pstr s) = false := by
        simp [pyIsNoneOrEmptyStr, hs]
      simp only [_parse_recipients, hguard, Bool.false_eq_true, if_false,
        strip_filter_eq_filterMap]

/-! ## Claim C10: html takes precedence over text in the backend -/

/-- C10: when `yagmail` assembles the SMTP contents, a truthy `html` body is
sent alone (a simultaneously present `text` body is dropped, not sent as an
alternative part); `text` is sent only when `html` is absent or empty; with
both absent or empty, the contents are empty. -/
theorem yagmail_html_over_text (m : EmailMessage) :
    (∀ h, m.html = some h → h ≠ "" → (yagmailSend m).contents = [h])
    ∧ ((m.html = none ∨ m.html = some "") →
        ∀ t, m.text = some t → t ≠ "" → (yagmailSend m).contents = [t])
    ∧ ((m.html = none ∨ m.html = some "") → (m.text = none ∨ m.text = some "") →
        (yagmailSend m).contents = []) := by
  refine ⟨?_, ?_, ?_⟩
  · intro h hh hne
    simp [yagmailSend, optTruthy, hh, hne]
  · rintro (hh | hh) t ht hne <;> simp [yagmailSend, optTruthy, hh, ht, hne]
  · rintro (hh | hh) (ht | ht) <;> simp [yagmailSend, optTruthy, hh, ht]

/-- Witness for C10 at a concrete message carrying both bodies. -/
theorem yagmail_html_over_text_witness :
    (yagmailSend { subject := "S", text := some "T", html := some "H",
                   sender := "f@x.com", «to» := ["a@x.com"], cc := [], bcc := [],
                   headers := [] }).contents = ["H"] :=
  (yagmail_html_over_text _).1 "H" rfl (by decide)

/-! ## Claim C6: the backend never transmits raw MIME content -/

/-- C6 (code bug): `YagmailClient.send` never reads `raw_mime`.  For the
raw-MIME message shape the raw-MIME branch of `handle` builds (`text` and
`html` both `None`, `raw_mime` populated) the contents handed to the SMTP
backend are empty — the raw MIME content is dropped, contradicting the
contract that the backend must support both message shapes. -/
theorem yagmail_drops_raw_mime :
    (yagmailSend rawMimeMsg).contents = []
    ∧ rawMimeMsg.raw_mime = some "MIME-Version: 1.0"
    ∧ ∀ (m : EmailMessage) (r r' : Option String),
        yagmailSend { m with raw_mime := r } = yagmailSend { m with raw_mime := r' } := by
  exact ⟨by decide, by decide, fun m r r' => rfl⟩

/-! ## Claim C5: raw-MIME extraction from the data payload -/

/-- C5 counterexample: in the mapping
`{"raw_mime": 42, "mime": "hello"}` the later key `mime` holds the non-empty
string `"hello"`, yet extraction yields nothing, because the truthy
non-string `42` at the earlier key stops the `or`-chain.  The claim predicts
`"hello"` ("a non-string value at an earlier key does not prevent a
non-empty string at a later key from being selected"). -/
theorem extract_raw_mime_earlier_key_blocks :
    dictGet [("raw_mime", .pint 42), ("mime", .pstr "hello")] "mime" = .pstr "hello"
    ∧ pyTruthy (.pstr "hello") = true
    ∧ _extract_raw_mime (.pdict [("raw_mime", .pint 42), ("mime", .pstr "hello")]) = none := by
  exact ⟨rfl, rfl, rfl⟩

/-- C5 amended: bytes decode with replacement; strings pass through
unchanged; for a mapping the first truthy value among the keys `raw_mime`,
`mime`, `message` is chosen — if it is a string with non-whitespace content
it is the raw content, otherwise (truthy non-string, or whitespace-only
string) there is none, and falsy values (absent, `None`, `""`, `0`, empty
collections, `False`) at earlier keys let later keys be considered; if no
value is truthy, or the payload has any other shape, there is no raw
content. -/
theorem extract_raw_mime_amended :
    (_extract_raw_mime .pnone = none)
    ∧ (∀ b, _extract_raw_mime (.pbytes b) = some (utf8DecodeReplace b))
    ∧ (∀ s, _extract_raw_mime (.pstr s) = some s)
    ∧ (∀ d, firstTruthy [dictGet d "raw_mime", dictGet d "mime", dictGet d "message"] = none →
        _extract_raw_mime (.pdict d) = none)
    ∧ (∀ d v, firstTruthy [dictGet d "raw_mime", dictGet d "mime", dictGet d "message"] = some v →
        _extract_raw_mime (.pdict d) =
          match v with
          | .pstr s => if pyStrip s = "" then none else some s
          | _ => none)
    ∧ ((∀ n, _extract_raw_mime (.pint n) = none)
       ∧ (∀ b, _extract_raw_mime (.pbool b) = none)
       ∧ (∀ l, _extract_raw_mime (.plist l) = none)) := by
  refine ⟨rfl, fun _ => rfl, fun _ => rfl, ?_, ?_, fun _ => rfl, fun _ => rfl, fun _ => rfl⟩
  · intro d h
    obtain ⟨hchain, hfalsy⟩ := orChain_of_firstTruthy_none _ _ _ h
    simp only [_extract_raw_mime, hchain]
    cases hv : dictGet d "message" with
    | pstr s =>
      rw [hv] at hfalsy
      have hs : s = "" := by
        simpa [pyTruthy] using hfalsy
      subst hs
      rfl
    | pnone => rfl
    | pbytes b => rfl
    | pint n => rfl
    | pbool b => rfl
    | plist l => rfl
    | pdict d2 => rfl
  · intro d v h
    have hchain := orChain_of_firstTruthy_some _ _ _ _ h
    simp only [_extract_raw_mime, hchain]
    cases v with
    | pstr s =>
      by_cases hs : pyStrip s = "" <;> simp [hs]
    | pnone => rfl
    | pbytes b => rfl
    | pint n => rfl
    | pbool b => rfl
    | plist l => rfl
    | pdict d2 => rfl

/-- Witness for C5's amended dict clause: a whitespace-padded but non-blank
string at the `mime` key (the first truthy value) is selected. -/
theorem extract_raw_mime_amended_witness :
    _extract_raw_mime (.pdict [("mime", .pstr " x ")]) = some " x " := by
  have h := extract_raw_mime_amended.2.2.2.2.1 [("mime", .pstr " x ")] (.pstr " x ") rfl
  simpa using h

/-! ## Claim C3: recipient-resolution precedence -/

/-- C3 counterexample: a context whose first-class `emailto` attribute is
absent but whose `data` mapping carries `{"emailto": "a@x.com"}`.  Under the
claim's precedence (extension attribute, then first-class attribute, then
`data` key) resolution yields `["a@x.com"]`; the code's resolution yields
`[]`, because `_recipients_from_event` consults only the first-class
attribute. -/
theorem recipients_resolution_counterexample :
    ctxDataRecipients.emailto = none
    ∧ dictGet [("emailto", .pstr "a@x.com")] "emailto" = .pstr "a@x.com"
    ∧ (resolveSpecAll ctxDataRecipients).1 = ["a@x.com"]
    ∧ (_recipients_from_event ctxDataRecipients).1 = [] := by
  exact ⟨rfl, rfl, rfl, rfl⟩

/-- C3 amended: recipient resolution consults only the first-class
`emailto`/`emailcc`/`emailbcc` attributes of the Event Context — neither
extension attributes nor keys of the `data` mapping are consulted (two
contexts agreeing on the three attributes resolve identically, whatever
their extensions and payloads) — and a field that is absent there yields the
empty list. -/
theorem recipients_resolution_amended (ctx ctx' : EventContext)
    (hto : ctx.emailto = ctx'.emailto) (hcc : ctx.emailcc = ctx'.emailcc)
    (hbcc : ctx.emailbcc = ctx'.emailbcc) :
    _recipients_from_event ctx = _recipients_from_event ctx'
    ∧ (ctx.emailto = none → (_recipients_from_event ctx).1 = [])
    ∧ (ctx.emailcc = none → (_recipients_from_event ctx).2.1 = [])
    ∧ (ctx.emailbcc = none → (_recipients_from_event ctx).2.2 = []) := by
  refine ⟨?_, ?_, ?_, ?_⟩
  · simp [_recipients_from_event, hto, hcc, hbcc]
  · intro h; simp [_recipients_from_event, h, optVal, _parse_recipients, pyIsNoneOrEmptyStr]
  · intro h; simp [_recipients_from_event, h, optVal, _parse_recipients, pyIsNoneOrEmptyStr]
  · intro h; simp [_recipients_from_event, h, optVal, _parse_recipients, pyIsNoneOrEmptyStr]

/-- Witness for C3's amended statement: two concrete contexts sharing the
same `emailto` but different payloads resolve identically, and absent fields
resolve to `[]`. -/
theorem recipients_resolution_amended_witness :
    _recipients_from_event { ctxPlain with emailto := some "a@x.com" } =
      _recipients_from_event { ctxDataRecipients with emailto := some "a@x.com" }
    ∧ (_recipients_from_event { ctxPlain with emailto := some "a@x.com" }).2.1 = [] :=
  ⟨(recipients_resolution_amended _ _ rfl rfl rfl).1,
   (recipients_resolution_amended { ctxPlain with emailto := some "a@x.com" }
      { ctxDataRecipients with emailto := some "a@x.com" } rfl rfl rfl).2.2.1 rfl⟩

/-! ## Claim C4: branch selection by datacontenttype -/

/-- C4 counterexample: `datacontenttype = " multipart/mixed"` (leading
space).  Compared case-insensitively it is none of `mimemultipart`,
`mime/multipart`, `multipart/mixed`, so the claim puts the request in the
template branch; the source strips whitespace first and executes the
raw-MIME branch: the renderer is never called and the raw message is handed
to delivery. -/
theorem branch_selection_counterexample :
    claimedMimeContentType (some " multipart/mixed") = false
    ∧ (handle (some envPaddedMime) settingsSend true (.ok "S" (some "T") none) true).renderCalled
        = false
    ∧ (handle (some envPaddedMime) settingsSend true (.ok "S" (some "T") none) true).sentMessage
        ≠ none := by
  refine ⟨by decide, by decide, by decide⟩

/-- C4 amended: with the comparison done case-insensitively AFTER trimming
surrounding whitespace (as the source does), the dichotomy holds: a MIME
content type executes the raw-MIME branch and never invokes the renderer,
and when no usable raw content is found the request fails with the
missing-payload 400 response (no fallback to templating, no delivery); any
other content type (including absent) executes the template branch, which
always invokes the renderer; exactly one branch runs. -/
theorem branch_selection_amended (settings : Settings) (render : RenderOutcome)
    (sendOk : Bool) (ctx : EventContext) :
    (isMimeContentType ctx.datacontenttype = true →
      (handleCtx settings true render sendOk ctx).renderCalled = false
      ∧ ((_extract_raw_mime ctx.data = none ∨ _extract_raw_mime ctx.data = some "") →
          handleCtx settings true render sendOk ctx =
            { body := "Missing raw MIME payload in CloudEvent data", status := 400,
              renderCalled := false, sentMessage := none,
              skipNoRecipients := false, skipDryRun := false }))
    ∧ (isMimeContentType ctx.datacontenttype = false →
        (handleCtx settings true render sendOk ctx).renderCalled = true) := by
  constructor
  · intro hmime
    constructor
    · simp only [handleCtx, hmime, Bool.not_true, Bool.false_eq_true, if_false, if_true]
      split
      · rfl
      · rename_i raw heq
        by_cases hr : raw = ""
        · rw [if_pos hr]
        · rw [if_neg hr]
          split_ifs <;> rfl
    · rintro (h | h) <;>
        simp only [handleCtx, hmime, Bool.not_true, Bool.false_eq_true, if_false, if_true, h]
  · intro hmime
    simp only [handleCtx, hmime, Bool.not_true, Bool.false_eq_true, if_false, if_true]
    cases render with
    | failure => rfl
    | ok subject text html =>
      simp only []
      split_ifs <;> rfl

/-- Witness for C4's amended statement at concrete inputs: a trimmed
`multipart/mixed` request with no usable raw content gets the 400
missing-payload response, and a plain request invokes the renderer. -/
theorem branch_selection_amended_witness :
    handleCtx settingsSend true (.ok "S" (some "T") none) true
        { ctxPlain with datacontenttype := some "multipart/mixed" } =
      { body := "Missing raw MIME payload in CloudEvent data", status := 400,
        renderCalled := false, sentMessage := none,
        skipNoRecipients := false, skipDryRun := false }
    ∧ (handleCtx settingsSend true (.ok "S" (some "T") none) true ctxPlain).renderCalled
        = true :=
  ⟨((branch_selection_amended settingsSend (.ok "S" (some "T") none) true
      { ctxPlain with datacontenttype := some "multipart/mixed" }).1 (by decide)).2
      (Or.inl rfl),
   (branch_selection_amended settingsSend (.ok "S" (some "T") none) true ctxPlain).2
      (by decide)⟩

/-! ## Claim C1: disposition order in the two branches -/

/-- C1 counterexample: in the template branch with `to` empty after fallback
but `cc` non-empty and dry-run disabled, the claim demands disposition
`Send`; the code skips with the no-recipients log line and hands nothing to
delivery, because the template branch checks only `msg.to`. -/
theorem disposition_counterexample :
    finalTo settingsNoTo ctxPlain = []
    ∧ finalCc settingsNoTo ctxPlain = ["cc@x.com"]
    ∧ settingsNoTo.dry_run = false
    ∧ (handleCtx settingsNoTo true (.ok "Subj" (some "body") none) true ctxPlain).sentMessage
        = none
    ∧ (handleCtx settingsNoTo true (.ok "Subj" (some "body") none) true ctxPlain).skipNoRecipients
        = true := by
  exact ⟨by decide, by decide, rfl, by decide, by decide⟩

/-- C1 amended: in the raw-MIME branch the disposition is decided exactly as
the claim says — skipped as NoRecipients iff all three lists (after
fallback) are empty, otherwise skipped as DryRun when dry-run is configured,
otherwise the message is handed to delivery.  In the template branch the
NoRecipients skip fires iff the `to` list (after fallback) is empty,
regardless of `cc`/`bcc`; otherwise DryRun, otherwise Send.  The claim's
"empty to but non-empty cc/bcc means Send" holds only in the raw-MIME
branch. -/
theorem disposition_amended (settings : Settings) (render : RenderOutcome)
    (sendOk : Bool) (ctx : EventContext) :
    (∀ raw, isMimeContentType ctx.datacontenttype = true →
      _extract_raw_mime ctx.data = some raw → raw ≠ "" →
      ((finalTo settings ctx = [] ∧ finalCc settings ctx = [] ∧ finalBcc settings ctx = [] →
          handleCtx settings true render sendOk ctx =
            { body := "", status := 202, renderCalled := false, sentMessage := none,
              skipNoRecipients := true, skipDryRun := false })
        ∧ (¬(finalTo settings ctx = [] ∧ finalCc settings ctx = [] ∧ finalBcc settings ctx = []) →
            settings.dry_run = true →
            handleCtx settings true render sendOk ctx =
              { body := "", status := 202, renderCalled := false, sentMessage := none,
                skipNoRecipients := false, skipDryRun := true })
        ∧ (¬(finalTo settings ctx = [] ∧ finalCc settings ctx = [] ∧ finalBcc settings ctx = []) →
            settings.dry_run = false →
            (handleCtx settings true render sendOk ctx).sentMessage =
              some (mimeMessage settings ctx raw))))
    ∧ (∀ subject text html, isMimeContentType ctx.datacontenttype = false →
        render = .ok subject text html →
        ((finalTo settings ctx = [] →
            handleCtx settings true render sendOk ctx =
              { body := "", status := 202, renderCalled := true, sentMessage := none,
                skipNoRecipients := true, skipDryRun := false })
        ∧ (finalTo settings ctx ≠ [] → settings.dry_run = true →
            handleCtx settings true render sendOk ctx =
              { body := "", status := 202, renderCalled := true, sentMessage := none,
                skipNoRecipients := false, skipDryRun := true })
        ∧ (finalTo settings ctx ≠ [] → settings.dry_run = false →
            (handleCtx settings true render sendOk ctx).sentMessage =
              some (templateMessage settings ctx subject text html)))) := by
  constructor
  · intro raw hmime hext hraw
    simp only [handleCtx, hmime, hext, Bool.not_true, Bool.false_eq_true, if_false, if_true,
      mimeMessage]
    simp only [if_neg hraw]
    refine ⟨?_, ?_, ?_⟩
    · intro hall
      rw [if_pos hall]
    · intro hnall hdry
      rw [if_neg hnall, if_pos hdry]
    · intro hnall hdry
      rw [if_neg hnall, if_neg (by simp [hdry])]
      by_cases hs : sendOk = true
      · rw [if_pos hs]
      · rw [if_neg hs]
  · intro subject text html hmime hrender
    subst hrender
    simp only [handleCtx, hmime, Bool.not_true, Bool.false_eq_true, if_false, if_true,
      templateMessage]
    refine ⟨?_, ?_, ?_⟩
    · intro hto
      rw [if_pos hto]
    · intro hto hdry
      rw [if_neg hto, if_pos hdry]
    · intro hto hdry
      rw [if_neg hto, if_neg (by simp [hdry])]
      by_cases hs : sendOk = true
      · rw [if_pos hs]
      · rw [if_neg hs]

/-- Witness for C1's amended statement: a raw-MIME request with a recipient
and dry-run off is handed to delivery; a template request with empty `to` is
skipped as NoRecipients. -/
theorem disposition_amended_witness :
    (handleCtx settingsSend true (.ok "S" none none) true ctxRawMime).sentMessage =
      some (mimeMessage settingsSend ctxRawMime "MIME body")
    ∧ handleCtx settingsNoTo true (.ok "S" none none) true ctxPlain =
        { body := "", status := 202, renderCalled := true, sentMessage := none,
          skipNoRecipients := true, skipDryRun := false } :=
  ⟨((disposition_amended settingsSend (.ok "S" none none) true ctxRawMime).1
      "MIME body" (by decide) rfl (by decide)).2.2 (by decide) rfl,
   ((disposition_amended settingsNoTo (.ok "S" none none) true ctxPlain).2
      "S" none none (by decide) rfl).1 (by decide)⟩

/-! ## Claim C2: no all-empty message reaches delivery -/

/-- C2: a message whose `to`, `cc` and `bcc` are all empty is never handed to
the delivery collaborator: for every request, in both branches, whenever the
handler passes a message to `client.send`, at least one list is non-empty. -/
theorem message_sent_not_all_empty (parsed : Option Envelope) (settings : Settings)
    (filterResult : Bool) (render : RenderOutcome) (sendOk : Bool) (msg : EmailMessage)
    (h : (handle parsed settings filterResult render sendOk).sentMessage = some msg) :
    ¬(msg.to = [] ∧ msg.cc = [] ∧ msg.bcc = []) := by
  intro hall
  cases parsed with
  | none => simp [handle] at h
  | some ce =>
    simp only [handle] at h
    split at h
    · simp at h
    · simp only [handleCtx] at h
      repeat' split at h
      all_goals simp_all [mimeMessage, templateMessage]
      all_goals (obtain ⟨h1, h2, h3⟩ := hall; subst h; simp_all)

/-- Witness for C2 at a concrete sending request. -/
theorem message_sent_not_all_empty_witness :
    ¬((templateMessage settingsSend ctxPlain "S" (some "T") none).to = []
      ∧ (templateMessage settingsSend ctxPlain "S" (some "T") none).cc = []
      ∧ (templateMessage settingsSend ctxPlain "S" (some "T") none).bcc = []) :=
  message_sent_not_all_empty (some envPlain) settingsSend true (.ok "S" (some "T") none) true
    (templateMessage settingsSend ctxPlain "S" (some "T") none) (by decide)

/-! ## Claim C9: the response contract -/

theorem handle_forms (parsed : Option Envelope) (settings : Settings) (filterResult : Bool)
    (render : RenderOutcome) (sendOk : Bool) :
    handle parsed settings filterResult render sendOk =
        { body := "Invalid CloudEvent", status := 400, renderCalled := false,
          sentMessage := none, skipNoRecipients := false, skipDryRun := false }
    ∨ ∃ ce ctx, parsed = some ce ∧ _ctx_from_cloudevent ce = some ctx ∧
        handle parsed settings filterResult render sendOk =
          handleCtx settings filterResult render sendOk ctx := by
  cases parsed with
  | none => exact Or.inl rfl
  | some ce =>
    cases hctx : _ctx_from_cloudevent ce with
    | none => left; simp [handle, hctx]
    | some ctx => right; exact ⟨ce, ctx, rfl, hctx, by simp [handle, hctx]⟩

theorem handleCtx_forms (settings : Settings) (filterResult : Bool) (render : RenderOutcome)
    (sendOk : Bool) (ctx : EventContext) :
    (handleCtx settings filterResult render sendOk ctx =
        { body := "", status := 204, renderCalled := false, sentMessage := none,
          skipNoRecipients := false, skipDryRun := false })
    ∨ (handleCtx settings filterResult render sendOk ctx =
        { body := "Missing raw MIME payload in CloudEvent data", status := 400,
          renderCalled := false, sentMessage := none,
          skipNoRecipients := false, skipDryRun := false })
    ∨ (handleCtx settings filterResult render sendOk ctx =
        { body := "Template rendering failed", status := 500, renderCalled := true,
          sentMessage := none, skipNoRecipients := false, skipDryRun := false })
    ∨ (∃ rc, handleCtx settings filterResult render sendOk ctx =
        { body := "", status := 202, renderCalled := rc, sentMessage := none,
          skipNoRecipients := true, skipDryRun := false })
    ∨ (∃ rc, handleCtx settings filterResult render sendOk ctx =
        { body := "", status := 202, renderCalled := rc, sentMessage := none,
          skipNoRecipients := false, skipDryRun := true })
    ∨ (∃ rc msg, sendOk = true ∧ handleCtx settings filterResult render sendOk ctx =
        { body := "", status := 202, renderCalled := rc, sentMessage := some msg,
          skipNoRecipients := false, skipDryRun := false })
    ∨ (∃ rc msg, sendOk = false ∧ handleCtx settings filterResult render sendOk ctx =
        { body := "Email send failed", status := 502, renderCalled := rc,
          sentMessage := some msg, skipNoRecipients := false, skipDryRun := false }) := by
  simp only [handleCtx]
  repeat' split
  all_goals simp_all

/-- C9: the handler's responses preserve the outcome distinction as listed:
an unparseable or incomplete envelope gives the 400 invalid-CloudEvent
response; a filtered-out event gives 204 with nothing rendered or sent; a
no-recipients or dry-run skip gives 202 with an empty body and no delivery;
a render failure in the template branch gives 500; a delivery failure gives
502; a successful send gives 202; and the five statuses are pairwise
distinct. -/
theorem response_contract :
    (∀ settings filterResult render sendOk,
        handle none settings filterResult render sendOk =
          { body := "Invalid CloudEvent", status := 400, renderCalled := false,
            sentMessage := none, skipNoRecipients := false, skipDryRun := false })
    ∧ (∀ ce settings filterResult render sendOk, _ctx_from_cloudevent ce = none →
        handle (some ce) settings filterResult render sendOk =
          { body := "Invalid CloudEvent", status := 400, renderCalled := false,
            sentMessage := none, skipNoRecipients := false, skipDryRun := false })
    ∧ (∀ ce settings render sendOk ctx, _ctx_from_cloudevent ce = some ctx →
        handle (some ce) settings false render sendOk =
          { body := "", status := 204, renderCalled := false, sentMessage := none,
            skipNoRecipients := false, skipDryRun := false })
    ∧ (∀ parsed settings filterResult render sendOk,
        ((handle parsed settings filterResult render sendOk).skipNoRecipients = true
          ∨ (handle parsed settings filterResult render sendOk).skipDryRun = true) →
        (handle parsed settings filterResult render sendOk).status = 202
          ∧ (handle parsed settings filterResult render sendOk).body = ""
          ∧ (handle parsed settings filterResult render sendOk).sentMessage = none)
    ∧ (∀ ce settings sendOk ctx, _ctx_from_cloudevent ce = some ctx →
        isMimeContentType ctx.datacontenttype = false →
        handle (some ce) settings true .failure sendOk =
          { body := "Template rendering failed", status := 500, renderCalled := true,
            sentMessage := none, skipNoRecipients := false, skipDryRun := false })
    ∧ (∀ parsed settings filterResult render msg,
        (handle parsed settings filterResult render false).sentMessage = some msg →
        (handle parsed settings filterResult render false).status = 502
          ∧ (handle parsed settings filterResult render false).body = "Email send failed")
    ∧ (∀ parsed settings filterResult render msg,
        (handle parsed settings filterResult render true).sentMessage = some msg →
        (handle parsed settings filterResult render true).status = 202
          ∧ (handle parsed settings filterResult render true).body = "")
    ∧ ((204 : Nat) ≠ 202 ∧ (204 : Nat) ≠ 500 ∧ (204 : Nat) ≠ 502 ∧ (204 : Nat) ≠ 400
       ∧ (202 : Nat) ≠ 500 ∧ (202 : Nat) ≠ 502 ∧ (202 : Nat) ≠ 400
       ∧ (500 : Nat) ≠ 502 ∧ (500 : Nat) ≠ 400 ∧ (502 : Nat) ≠ 400) := by
  refine ⟨fun _ _ _ _ => rfl, ?_, ?_, ?_, ?_, ?_, ?_, by norm_num⟩
  · intro ce settings filterResult render sendOk h
    simp [handle, h]
  · intro ce settings render sendOk ctx h
    simp [handle, h, handleCtx]
  · intro parsed settings filterResult render sendOk hskip
    rcases handle_forms parsed settings filterResult render sendOk with h | ⟨ce, ctx, hp, hc, h⟩
    · rw [h] at hskip
      simp at hskip
    · rw [h] at hskip ⊢
      rcases handleCtx_forms settings filterResult render sendOk ctx with
        hf | hf | hf | ⟨rc, hf⟩ | ⟨rc, hf⟩ | ⟨rc, msg, hs, hf⟩ | ⟨rc, msg, hs, hf⟩ <;>
        rw [hf] at hskip ⊢ <;> simp_all
  · intro ce settings sendOk ctx h hmime
    simp [handle, h, handleCtx, hmime]
  · intro parsed settings filterResult render msg h
    rcases handle_forms parsed settings filterResult render false with hh | ⟨ce, ctx, hp, hc, hh⟩
    · rw [hh] at h
      simp at h
    · rw [hh] at h ⊢
      rcases handleCtx_forms settings filterResult render false ctx with
        hf | hf | hf | ⟨rc, hf⟩ | ⟨rc, hf⟩ | ⟨rc, m, hs, hf⟩ | ⟨rc, m, hs, hf⟩ <;>
        rw [hf] at h ⊢ <;> simp_all
  · intro parsed settings filterResult render msg h
    rcases handle_forms parsed settings filterResult render true with hh | ⟨ce, ctx, hp, hc, hh⟩
    · rw [hh] at h
      simp at h
    · rw [hh] at h ⊢
      rcases handleCtx_forms settings filterResult render true ctx with
        hf | hf | hf | ⟨rc, hf⟩ | ⟨rc, hf⟩ | ⟨rc, m, hs, hf⟩ | ⟨rc, m, hs, hf⟩ <;>
        rw [hf] at h ⊢ <;> simp_all

/-- Witness for C9 at concrete inputs: a render failure gets the 500
response, and a successful send gets 202. -/
theorem response_contract_witness :
    handle (some envPlain) settingsSend true .failure true =
      { body := "Template rendering failed", status := 500, renderCalled := true,
        sentMessage := none, skipNoRecipients := false, skipDryRun := false }
    ∧ (handle (some envPlain) settingsSend true (.ok "S" (some "T") none) true).status = 202 :=
  ⟨response_contract.2.2.2.2.1 envPlain settingsSend true ctxPlain rfl (by decide),
   (response_contract.2.2.2.2.2.2.1 (some envPlain) settingsSend true (.ok "S" (some "T") none)
      (templateMessage settingsSend ctxPlain "S" (some "T") none) (by decide)).1⟩

/-! ## Claim C7: idempotence of parse under comma-join -/

theorem stripChars_eq_rdropWhile (l : List Char) :
    stripChars l = List.rdropWhile isPySpace (l.dropWhile isPySpace) := rfl

theorem dropWhile_stripChars (l : List Char) :
    (stripChars l).dropWhile isPySpace = stripChars l := by
  rw [stripChars_eq_rdropWhile]
  have hmself : (l.dropWhile isPySpace).dropWhile isPySpace = l.dropWhile isPySpace :=
    List.dropWhile_idempotent isPySpace l
  have hpre : List.rdropWhile isPySpace (l.dropWhile isPySpace) <+: l.dropWhile isPySpace :=
    List.rdropWhile_prefix isPySpace (l.dropWhile isPySpace)
  rw [List.dropWhile_eq_self_iff]
  intro hl
  have h0 : (List.rdropWhile isPySpace (l.dropWhile isPySpace)).get ⟨0, hl⟩ =
      (l.dropWhile isPySpace).get ⟨0, hl.trans_le hpre.length_le⟩ := by
    simp only [List.get_eq_getElem]
    exact List.IsPrefix.getElem hpre hl
  rw [h0]
  exact List.dropWhile_get_zero_not isPySpace l (hl.trans_le hpre.length_le)

theorem stripChars_idem (l : List Char) : stripChars (stripChars l) = stripChars l := by
  conv_lhs => rw [stripChars_eq_rdropWhile, dropWhile_stripChars]
  rw [stripChars_eq_rdropWhile]
  exact List.rdropWhile_idempotent isPySpace (l.dropWhile isPySpace)

theorem pyStrip_data (s : String) : (pyStrip s).data = stripChars s.data := rfl

theorem map_eq_self_of_forall (L : List String) (f : String → String)
    (h : ∀ s ∈ L, f s = s) : L.map f = L := by
  induction L with
  | nil => rfl
  | cons a l ih =>
    rw [List.map_cons, h a (by simp), ih (fun s hs => h s (by simp [hs]))]

theorem filter_ne_empty_eq_self (L : List String) (h : ∀ s ∈ L, s ≠ "") :
    L.filter (fun s => s != "") = L := by
  induction L with
  | nil => rfl
  | cons a l ih =>
    rw [List.filter_cons]
    have ha : (a != "") = true := by simpa using h a (by simp)
    rw [if_pos ha, ih (fun s hs => h s (by simp [hs]))]

theorem mem_parse_recipients_stripped (v : PyVal) (s : String)
    (hs : s ∈ _parse_recipients v) : pyStrip s = s ∧ s ≠ "" := by
  unfold _parse_recipients at hs
  split at hs
  · simp at hs
  · match v, hs with
    | .plist xs, hs =>
      rw [List.mem_filter] at hs
      obtain ⟨hmem, hne⟩ := hs
      rw [List.mem_map] at hmem
      obtain ⟨x, _, hx⟩ := hmem
      subst hx
      refine ⟨?_, by simpa using hne⟩
      apply String.ext
      rw [pyStrip_data, pyStrip_data, stripChars_idem]
    | .pstr t, hs =>
      rw [List.mem_filter] at hs
      obtain ⟨hmem, hne⟩ := hs
      rw [List.mem_map] at hmem
      obtain ⟨w, _, hw⟩ := hmem
      subst hw
      refine ⟨?_, by simpa using hne⟩
      apply String.ext
      rw [pyStrip_data, pyStrip_data, stripChars_idem]
    | .pint n, hs => simp at hs
    | .pbool b, hs => simp at hs
    | .pbytes bs, hs => simp at hs
    | .pdict d, hs => simp at hs
    | .pnone, hs => simp at hs

/-- C7 counterexample: for the list input `["a,b"]` the parsed list is
`["a,b"]` (list elements are not split on commas), but joining with commas
and re-parsing splits the embedded comma, giving `["a", "b"]` — so
join-then-parse does not reproduce the list for list inputs whose elements
contain commas. -/
theorem parse_join_counterexample :
    _parse_recipients (.plist [.pstr "a,b"]) = ["a,b"]
    ∧ commaJoin (_parse_recipients (.plist [.pstr "a,b"])) = "a,b"
    ∧ _parse_recipients (.pstr (commaJoin (_parse_recipients (.plist [.pstr "a,b"])))) =
        ["a", "b"]
    ∧ (["a", "b"] : List String) ≠ ["a,b"] := by
  refine ⟨by decide, by decide, by decide, by decide⟩

/-- C7 amended: parse is idempotent under comma-join for every input whose
PARSED elements contain no comma — in particular for every string input
(splitting on commas leaves no comma inside a segment) and every list input
with comma-free elements: joining `parse v` with commas and parsing again
reproduces exactly the same list, in order and multiplicity.  (The
counterexample shows the restriction is necessary for list inputs.) -/
theorem parse_join_idem (v : PyVal)
    (hnc : ∀ s ∈ _parse_recipients v, ',' ∉ s.data) :
    _parse_recipients (.pstr (commaJoin (_parse_recipients v))) = _parse_recipients v := by
  rcases hL : _parse_recipients v with _ | ⟨x, rest⟩
  · rfl
  · have hmem := fun s hs => mem_parse_recipients_stripped v s (hL ▸ hs)
    have hnc2 := fun s hs => hnc s (hL ▸ hs)
    set L := x :: rest with hLdef
    have hdata : (commaJoin L).data = List.intercalate [','] (L.map String.data) := rfl
    have hsplit : (commaJoin L).data.splitOn ',' = L.map String.data := by
      rw [hdata]
      refine List.splitOn_intercalate (L.map String.data) ',' ?_ (by simp)
      intro w hw
      rw [List.mem_map] at hw
      obtain ⟨t, htmem, hwt⟩ := hw
      subst hwt
      exact hnc2 t htmem
    have hxmem : x ∈ L := by rw [hLdef]; exact List.mem_cons_self x rest
    have hxne : x ≠ "" := (hmem x hxmem).2
    have hjne : commaJoin L ≠ "" := by
      intro hj
      have hjd : (commaJoin L).data = [] := by rw [hj]
      rw [hjd, List.splitOn_nil, hLdef, List.map_cons] at hsplit
      obtain ⟨h1, _⟩ := List.cons_eq_cons.mp hsplit
      exact hxne (String.ext h1.symm)
    have hguard : pyIsNoneOrEmptyStr (.pstr (commaJoin L)) = false := by
      simp [pyIsNoneOrEmptyStr, hjne]
    unfold _parse_recipients
    rw [hguard]
    simp only [Bool.false_eq_true, if_false]
    have hsplitStr : pySplitComma (commaJoin L) = L := by
      unfold pySplitComma
      rw [hsplit, List.map_map]
      have hid : ((fun seg => (⟨seg⟩ : String)) ∘ String.data) = id := by
        funext t
        rfl
      rw [hid, List.map_id]
    rw [hsplitStr]
    have hstripmap : L.map pyStrip = L :=
      map_eq_self_of_forall L pyStrip (fun t ht => (hmem t ht).1)
    rw [hstripmap]
    exact filter_ne_empty_eq_self L (fun t ht => (hmem t ht).2)

/-- Witness for C7's amended statement at a concrete comma-free input. -/
theorem parse_join_idem_witness :
    _parse_recipients (.pstr (commaJoin (_parse_recipients (.pstr "a, b")))) =
      _parse_recipients (.pstr "a, b") :=
  parse_join_idem (.pstr "a, b") (by decide)

end NaEmailer
